import Mathlib

/-!
Shallow embedding of the `snips-nlu-ontology` builtin-entity ontology
(`src/snips-nlu-ontology/src/builtin_entity.rs`) and of the spec-described
conversion/parsing layer of `snips-nlu-ontology-parsers`, together with
theorems settling the specification claims about this code.
-/

namespace Snips

/-- The closed set of supported natural languages.  The `Language` enum itself
lives in `language.rs` (not part of the provided sources); its six variants are
exactly the ones matched in `BuiltinEntityKind::examples` in
`builtin_entity.rs` and listed by the spec: DE, EN, ES, FR, JA, KO. -/
inductive Language where
  | DE | EN | ES | FR | JA | KO
deriving DecidableEq, Fintype, Repr

/-- `BuiltinEntityKind`, generated in the source by
`enum_kind!(BuiltinEntityKind, [AmountOfMoney, Duration, Number, Ordinal,
Temperature, Time, Percentage])` (builtin_entity.rs lines 39-50). -/
inductive BuiltinEntityKind where
  | AmountOfMoney | Duration | Number | Ordinal | Temperature | Time | Percentage
deriving DecidableEq, Fintype, Repr

/-- `BuiltinEntityKind::all()`, generated by the `enum_kind!` macro: all
variants in declaration order (the spec describes `all()` as a fixed-order
sequence of every kind). -/
def BuiltinEntityKind.all : List BuiltinEntityKind :=
  [.AmountOfMoney, .Duration, .Number, .Ordinal, .Temperature, .Time, .Percentage]

/-- `BuiltinEntityKind::identifier` (builtin_entity.rs lines 53-63). -/
def BuiltinEntityKind.identifier : BuiltinEntityKind → String
  | .AmountOfMoney => "snips/amountOfMoney"
  | .Duration => "snips/duration"
  | .Number => "snips/number"
  | .Ordinal => "snips/ordinal"
  | .Temperature => "snips/temperature"
  | .Time => "snips/datetime"
  | .Percentage => "snips/percentage"

/-- `BuiltinEntityKind::from_identifier` (builtin_entity.rs lines 65-71):
linear scan over `all()` for the first kind whose identifier equals the given
string; the `failure` error is modelled as its formatted message string. -/
def BuiltinEntityKind.from_identifier (identifier : String) : Except String BuiltinEntityKind :=
  match BuiltinEntityKind.all.find? (fun kind => kind.identifier == identifier) with
  | some k => .ok k
  | none => .error ("Unknown EntityKind identifier: " ++ identifier)

/-- `BuiltinEntityKind::description` (builtin_entity.rs lines 75-85). -/
def BuiltinEntityKind.description : BuiltinEntityKind → String
  | .AmountOfMoney => "Matches amount of money"
  | .Duration => "Matches time duration"
  | .Number => "Matches a cardinal numbers"
  | .Ordinal => "Matches a ordinal numbers"
  | .Temperature => "Matches a temperature"
  | .Time => "Matches date, time, intervals or date and time together"
  | .Percentage => "Matches a percentage"

/-- `BuiltinEntityKind::de_examples` (builtin_entity.rs lines 100-142). -/
def BuiltinEntityKind.de_examples : BuiltinEntityKind → List String
  | .AmountOfMoney => ["10$", "ungefähr 5€", "zwei tausend Dollar"]
  | .Duration => ["2stdn", "drei monate", "ein halbe Stunde", "8 Jahre und zwei Tage"]
  | .Number => ["2001", "einundzwanzig", "zwei tausend", "zwei tausend und drei"]
  | .Ordinal => ["Erste", "der zweite", "zwei und zwanzigster"]
  | .Temperature => ["70K", "3°C", "Dreiundzwanzig Grad", "zweiunddreißig Grad Fahrenheit"]
  | .Time => ["Heute", "16.30 Uhr", "in 1 Stunde", "dritter Dienstag im Juni"]
  | .Percentage => ["25%", "zwanzig Prozent", "zwei tausend und fünfzig Prozent"]

/-- `BuiltinEntityKind::en_examples` (builtin_entity.rs lines 144-185). -/
def BuiltinEntityKind.en_examples : BuiltinEntityKind → List String
  | .AmountOfMoney => ["10$", "around 5€", "ten dollars and five cents"]
  | .Duration => ["1h", "3 months", "half an hour", "8 years and two days"]
  | .Number => ["2001", "twenty one", "three hundred and four"]
  | .Ordinal => ["1st", "the second", "the twenty third"]
  | .Temperature => ["70K", "3°C", "Twenty three degrees", "one hundred degrees fahrenheit"]
  | .Time => ["Today", "4:30 pm", "in 1 hour", "3rd tuesday of June"]
  | .Percentage => ["25%", "twenty percent", "two hundred and fifty percents"]

/-- `BuiltinEntityKind::es_examples` (builtin_entity.rs lines 187-235; the
commented-out TODO examples are absent from the compiled arrays). -/
def BuiltinEntityKind.es_examples : BuiltinEntityKind → List String
  | .AmountOfMoney => ["10$", "cinco euros", "diez dólares y cinco centavos"]
  | .Duration => ["1h", "3 meses"]
  | .Number => ["2001", "diez y ocho"]
  | .Ordinal => ["primer"]
  | .Temperature => ["70K", "3°C", "veintitrés grados"]
  | .Time => ["hoy", "esta noche", "a la 1:30", "el primer jueves de junio"]
  | .Percentage => ["25%", "quince porcientos", "20 por ciento"]

/-- `BuiltinEntityKind::fr_examples` (builtin_entity.rs lines 237-279). -/
def BuiltinEntityKind.fr_examples : BuiltinEntityKind → List String
  | .AmountOfMoney => ["10$", "environ 5€", "dix dollars et cinq centimes"]
  | .Duration => ["1h", "3 mois", "une demi heure", "8 ans et deux jours"]
  | .Number => ["2001", "vingt deux", "deux cent trois", "quatre vingt dix neuf"]
  | .Ordinal => ["1er", "le deuxième", "vingt et unieme"]
  | .Temperature => ["70K", "3°C", "vingt trois degrés", "deux cent degrés Fahrenheit"]
  | .Time => ["Aujourd'hui", "à 14:30", "dans 1 heure", "le premier jeudi de Juin"]
  | .Percentage => ["25%", "20 pourcents", "quatre vingt dix pourcents"]

/-- `BuiltinEntityKind::ja_examples` (builtin_entity.rs lines 281-295). -/
def BuiltinEntityKind.ja_examples : BuiltinEntityKind → List String
  | .Number => ["十二", "二千五", "四千三百二"]
  | _ => []

/-- `BuiltinEntityKind::ko_examples` (builtin_entity.rs lines 297-331). -/
def BuiltinEntityKind.ko_examples : BuiltinEntityKind → List String
  | .AmountOfMoney => ["10$", "약 5 유로", "10 달러 5 센트"]
  | .Duration => ["양일", "1시간", "3 개월"]
  | .Number => ["2001", "삼천", "스물 둘", "천 아흔 아홉"]
  | .Ordinal => ["첫", "첫번째"]
  | .Temperature => ["5도", "섭씨 20도", "화씨 백 도"]
  | .Time => ["오늘", "14시 30 분에", "5 월 첫째 목요일"]
  | .Percentage => []

/-- `BuiltinEntityKind::examples` (builtin_entity.rs lines 89-98): dispatch on
the language. -/
def BuiltinEntityKind.examples (kind : BuiltinEntityKind) : Language → List String
  | .DE => kind.de_examples
  | .EN => kind.en_examples
  | .ES => kind.es_examples
  | .FR => kind.fr_examples
  | .JA => kind.ja_examples
  | .KO => kind.ko_examples

/-- `BuiltinEntityKind::supported_languages` (builtin_entity.rs lines 392-451). -/
def BuiltinEntityKind.supported_languages : BuiltinEntityKind → List Language
  | .AmountOfMoney => [.DE, .EN, .ES, .FR, .JA, .KO]
  | .Duration => [.DE, .EN, .ES, .FR, .JA, .KO]
  | .Number => [.DE, .EN, .ES, .FR, .JA, .KO]
  | .Ordinal => [.DE, .EN, .ES, .FR, .JA, .KO]
  | .Temperature => [.DE, .EN, .ES, .FR, .JA, .KO]
  | .Time => [.DE, .EN, .ES, .FR, .JA, .KO]
  | .Percentage => [.DE, .EN, .ES, .FR, .JA]

/-- `Precision` enumeration, referenced in `builtin_entity.rs` as
`::Precision::Exact` / `::Precision::Approximate`; the full variant set is the
one given by the spec data model: Exact, Approximate. -/
inductive Precision where
  | Exact | Approximate
deriving DecidableEq, Repr

/-- `Grain` enumeration, referenced in `builtin_entity.rs` as `::Grain::Hour`
and `::Grain::Year`; the full variant set is the one given by the spec data
model: the time granularities Year .. Second. -/
inductive Grain where
  | Year | Quarter | Month | Week | Day | Hour | Minute | Second
deriving DecidableEq, Repr

/-- Modelled from the spec: `NumberValue{value: float64}` (the value-model
structs live in the crate's lib.rs, not among the provided sources; float64
literals are represented as rationals). -/
structure NumberValue where
  value : ℚ
deriving DecidableEq, Repr

/-- Modelled from the spec: `OrdinalValue{value: int64}`. -/
structure OrdinalValue where
  value : ℤ
deriving DecidableEq, Repr

/-- Modelled from the spec: `PercentageValue{value: float64}`. -/
structure PercentageValue where
  value : ℚ
deriving DecidableEq, Repr

/-- Modelled from the spec: `AmountOfMoneyValue{value, precision, unit}`,
field order as used by `result_description` in `builtin_entity.rs`. -/
structure AmountOfMoneyValue where
  value : ℚ
  precision : Precision
  unit : Option String
deriving DecidableEq, Repr

/-- Modelled from the spec: `TemperatureValue{value, unit}`. -/
structure TemperatureValue where
  value : ℚ
  unit : Option String
deriving DecidableEq, Repr

/-- Modelled from the spec: `DurationValue` with the seven int64 component
counts and a precision, field order as used by `result_description` in
`builtin_entity.rs`. -/
structure DurationValue where
  years : ℤ
  quarters : ℤ
  months : ℤ
  weeks : ℤ
  days : ℤ
  hours : ℤ
  minutes : ℤ
  seconds : ℤ
  precision : Precision
deriving DecidableEq, Repr

/-- Modelled from the spec: `InstantTimeValue{value, grain, precision}`
(field order as shown by the serde tokens of `test_builtin_entity_ser_de`). -/
structure InstantTimeValue where
  value : String
  grain : Grain
  precision : Precision
deriving DecidableEq, Repr

/-- Modelled from the spec: `TimeIntervalValue{from, to}` (`from` is a Lean
keyword, hence the guillemets). -/
structure TimeIntervalValue where
  «from» : Option String
  «to» : Option String
deriving DecidableEq, Repr

/-- Modelled from the spec: the `SlotValue` tagged union, one variant per
entity kind (Time has two value shapes: instant and interval). -/
inductive SlotValue where
  | Number (v : NumberValue)
  | Ordinal (v : OrdinalValue)
  | Percentage (v : PercentageValue)
  | AmountOfMoney (v : AmountOfMoneyValue)
  | Temperature (v : TemperatureValue)
  | Duration (v : DurationValue)
  | InstantTime (v : InstantTimeValue)
  | TimeInterval (v : TimeIntervalValue)
deriving DecidableEq, Repr

/-- The `kind` discriminator string a `SlotValue` variant serializes with:
the value-model variant name, as shown by the serde tokens in
`test_builtin_entity_ser_de` (`"kind": "InstantTime"`) and the spec's wire
format section. -/
def SlotValue.kindTag : SlotValue → String
  | .Number _ => "Number"
  | .Ordinal _ => "Ordinal"
  | .Percentage _ => "Percentage"
  | .AmountOfMoney _ => "AmountOfMoney"
  | .Temperature _ => "Temperature"
  | .Duration _ => "Duration"
  | .InstantTime _ => "InstantTime"
  | .TimeInterval _ => "TimeInterval"

/-- The unit-variant name `Precision` serializes with (serde derive; shown by
the `Token::UnitVariant` in `test_builtin_entity_ser_de`). -/
def Precision.tag : Precision → String
  | .Exact => "Exact"
  | .Approximate => "Approximate"

/-- The unit-variant name `Grain` serializes with (serde derive; shown by the
`Token::UnitVariant` in `test_builtin_entity_ser_de`). -/
def Grain.tag : Grain → String
  | .Year => "Year"
  | .Quarter => "Quarter"
  | .Month => "Month"
  | .Week => "Week"
  | .Day => "Day"
  | .Hour => "Hour"
  | .Minute => "Minute"
  | .Second => "Second"

/-- JSON document tree, the target of the structural encoding collaborator. -/
inductive Json where
  | null
  | str (s : String)
  | jint (n : ℤ)
  | jfloat (q : ℚ)
  | arr (elems : List Json)
  | obj (fields : List (String × Json))
deriving Repr

/-- Two-space indentation prefix of serde_json's pretty formatter. -/
def indentStr (n : Nat) : String :=
  String.join (List.replicate n "  ")

/-- JSON string escaping (quote, backslash, newline; the static ontology data
contains no other characters needing escapes). -/
def escapeJsonChar (c : Char) : String :=
  if c = '"' then "\\\""
  else if c = '\\' then "\\\\"
  else if c = '\n' then "\\n"
  else String.singleton c

def renderJsonString (s : String) : String :=
  "\"" ++ String.join (s.toList.map escapeJsonChar) ++ "\""

def stripTrailingZeros (s : String) : String :=
  let l := (s.toList.reverse.dropWhile (fun c => c = '0')).reverse
  if l.isEmpty then "0" else String.mk l

def padZerosLeft (s : String) (k : Nat) : String :=
  String.join (List.replicate (k - s.length) "0") ++ s

/-- serde_json's shortest-decimal rendering of a finite-decimal float64,
restricted to the decimal fractions appearing in the static ontology data:
an integer rational renders with a trailing `.0` (e.g. `20.0`), otherwise the
fractional digits are printed without trailing zeros (e.g. `10.05`). -/
def renderFloat (q : ℚ) : String :=
  let sign := if q < 0 then "-" else ""
  let a := |q|
  let k := ((List.range 19).find? (fun k => (10 ^ k) % a.den == 0)).getD 0
  let m := a.num.toNat * 10 ^ k / a.den
  let ip := m / 10 ^ k
  let fp := m % 10 ^ k
  let fdigits := if k == 0 then "0" else stripTrailingZeros (padZerosLeft (toString fp) k)
  sign ++ toString ip ++ "." ++ fdigits

mutual

/-- Model of serde_json's pretty printer (`to_string_pretty`): two-space
indent, items one per line, `"key": value` fields, at indent level `lvl`. -/
def Json.render : Json → Nat → String
  | .null, _ => "null"
  | .str s, _ => renderJsonString s
  | .jint n, _ => toString n
  | .jfloat q, _ => renderFloat q
  | .arr [], _ => "[]"
  | .arr (x :: xs), lvl =>
      "[\n" ++ Json.renderItems (x :: xs) (lvl + 1) ++ "\n" ++ indentStr lvl ++ "]"
  | .obj [], _ => "\x7b\x7d"
  | .obj (f :: fs), lvl =>
      "\x7b\n" ++ Json.renderFields (f :: fs) (lvl + 1) ++ "\n" ++ indentStr lvl ++ "\x7d"

def Json.renderItems : List Json → Nat → String
  | [], _ => ""
  | [x], lvl => indentStr lvl ++ x.render lvl
  | x :: y :: xs, lvl =>
      indentStr lvl ++ x.render lvl ++ ",\n" ++ Json.renderItems (y :: xs) lvl

def Json.renderFields : List (String × Json) → Nat → String
  | [], _ => ""
  | [(key, v)], lvl => indentStr lvl ++ renderJsonString key ++ ": " ++ v.render lvl
  | (key, v) :: f :: fs, lvl =>
      indentStr lvl ++ renderJsonString key ++ ": " ++ v.render lvl ++ ",\n" ++
        Json.renderFields (f :: fs) lvl

end

def jsonOfOptString : Option String → Json
  | none => .null
  | some s => .str s

/-- Modelled from the spec's wire format and the serde tokens of
`test_builtin_entity_ser_de`: the structural JSON encoding of a `SlotValue` —
an object carrying the `kind` discriminator (the variant name) first, then the
variant's fields in declaration order. -/
def SlotValue.toJson : SlotValue → Json
  | .Number v => .obj [("kind", .str "Number"), ("value", .jfloat v.value)]
  | .Ordinal v => .obj [("kind", .str "Ordinal"), ("value", .jint v.value)]
  | .Percentage v => .obj [("kind", .str "Percentage"), ("value", .jfloat v.value)]
  | .AmountOfMoney v =>
      .obj [("kind", .str "AmountOfMoney"), ("value", .jfloat v.value),
        ("precision", .str v.precision.tag), ("unit", jsonOfOptString v.unit)]
  | .Temperature v =>
      .obj [("kind", .str "Temperature"), ("value", .jfloat v.value),
        ("unit", jsonOfOptString v.unit)]
  | .Duration v =>
      .obj [("kind", .str "Duration"), ("years", .jint v.years),
        ("quarters", .jint v.quarters), ("months", .jint v.months),
        ("weeks", .jint v.weeks), ("days", .jint v.days),
        ("hours", .jint v.hours), ("minutes", .jint v.minutes),
        ("seconds", .jint v.seconds), ("precision", .str v.precision.tag)]
  | .InstantTime v =>
      .obj [("kind", .str "InstantTime"), ("value", .str v.value),
        ("grain", .str v.grain.tag), ("precision", .str v.precision.tag)]
  | .TimeInterval v =>
      .obj [("kind", .str "TimeInterval"), ("from", jsonOfOptString v.«from»),
        ("to", jsonOfOptString v.to)]

/-- The example `SlotValue` list each kind's `result_description` serializes
(builtin_entity.rs lines 335-389). -/
def BuiltinEntityKind.result_description_values : BuiltinEntityKind → List SlotValue
  | .AmountOfMoney => [.AmountOfMoney ⟨10.05, .Approximate, some "€"⟩]
  | .Duration => [.Duration ⟨0, 0, 3, 0, 0, 0, 0, 0, .Exact⟩]
  | .Number => [.Number ⟨42⟩]
  | .Ordinal => [.Ordinal ⟨2⟩]
  | .Temperature =>
      [.Temperature ⟨23.0, some "celsius"⟩, .Temperature ⟨60.0, some "fahrenheit"⟩]
  | .Time =>
      [.InstantTime ⟨"2017-06-13 18:00:00 +02:00", .Hour, .Exact⟩,
        .TimeInterval ⟨some "2017-06-07 18:00:00 +02:00",
          some "2017-06-08 00:00:00 +02:00"⟩]
  | .Percentage => [.Percentage ⟨20⟩]

/-- `BuiltinEntityKind::result_description` (builtin_entity.rs lines 335-389):
pretty-serializes the kind's example value list (`serde_json::to_string_pretty`
is modelled by `Json.render` at indent level 0; with the well-formed static
data serialization cannot fail, so the result is always `ok`). -/
def BuiltinEntityKind.result_description (k : BuiltinEntityKind) : Except String String :=
  .ok ((Json.arr (k.result_description_values.map SlotValue.toJson)).render 0)

/-- `Range<usize>` as it appears in `BuiltinEntity` and serializes in the
`test_builtin_entity_ser_de` tokens: a struct with `start` and `end` fields
(`end` is a Lean keyword, hence the guillemets). -/
structure ByteRange where
  start : Nat
  «end» : Nat
deriving DecidableEq, Repr

/-- The `BuiltinEntity` record (builtin_entity.rs lines 9-17). -/
structure BuiltinEntity where
  value : String
  range : ByteRange
  entity : SlotValue
  entity_kind : BuiltinEntityKind
deriving DecidableEq, Repr

/-- Structural JSON serialization of a `BuiltinEntity`: the four fields in
declaration order (serde derive on the struct), with `entity_kind` going
through `serialize_builtin_entity_kind` (builtin_entity.rs lines 19-27),
which writes the kind's `identifier()` string. -/
def BuiltinEntity.serialize (e : BuiltinEntity) : Json :=
  .obj [("value", .str e.value),
    ("range", .obj [("start", .jint e.range.start), ("end", .jint e.range.«end»)]),
    ("entity", e.entity.toJson),
    ("entity_kind", .str e.entity_kind.identifier)]

/-- Field lookup in a JSON object (none on non-objects or missing keys). -/
def Json.getField : Json → String → Option Json
  | .obj fields, key => (fields.find? (fun f => f.1 == key)).map (fun f => f.2)
  | _, _ => none

/-- Field-level model of serde's derived `Deserialize` for `BuiltinEntity`
(builtin_entity.rs lines 9-17): each field is decoded independently by the
structural decoding collaborator; only the `entity_kind` string goes through
`deserialize_builtin_entity_kind` (builtin_entity.rs lines 29-37), which
parses it with `from_identifier` and propagates that error. -/
def deserialize_builtin_entity (value : String) (range : ByteRange)
    (entity : SlotValue) (entity_kind_str : String) : Except String BuiltinEntity :=
  match BuiltinEntityKind.from_identifier entity_kind_str with
  | .ok k => .ok ⟨value, range, entity, k⟩
  | .error e => .error e

/-- Modelled from the spec: a raw Duration engine match — the seven component
counts as optionally-present integers plus an optional precision flag, as
delivered by the external parsing engine (the conversion code lives in the
parsers crate's `conversion.rs`, which is not among the provided sources). -/
structure RawDurationMatch where
  years : Option ℤ
  quarters : Option ℤ
  months : Option ℤ
  weeks : Option ℤ
  days : Option ℤ
  hours : Option ℤ
  minutes : Option ℤ
  seconds : Option ℤ
  precision : Option Precision
deriving DecidableEq, Repr

/-- Modelled from the spec: conversion of a raw Duration match into a
`DurationValue` — components missing from the engine default to 0, a missing
precision flag defaults to `Exact`, and a negative component is rejected with
a `ConversionError`. -/
def convert_duration (r : RawDurationMatch) : Except String DurationValue :=
  let d : DurationValue :=
    ⟨r.years.getD 0, r.quarters.getD 0, r.months.getD 0, r.weeks.getD 0,
      r.days.getD 0, r.hours.getD 0, r.minutes.getD 0, r.seconds.getD 0,
      r.precision.getD .Exact⟩
  if d.years < 0 ∨ d.quarters < 0 ∨ d.months < 0 ∨ d.weeks < 0 ∨ d.days < 0 ∨
      d.hours < 0 ∨ d.minutes < 0 ∨ d.seconds < 0 then
    .error "ConversionError: negative duration component"
  else
    .ok d

/-- Modelled from the spec: the parser facade's output ordering comparator
(`builtin_entity_parser.rs` is not among the provided sources) — ascending by
`range.start`, ties broken by descending `range.end` (longer span first). -/
def extractOrderLe (a b : BuiltinEntity) : Bool :=
  a.range.start < b.range.start ||
    (a.range.start == b.range.start && b.range.«end» ≤ a.range.«end»)

/-- Modelled from the spec: the final step of `extract` orders the converted
matches by `extractOrderLe` before returning them. -/
def extractOrder (ms : List BuiltinEntity) : List BuiltinEntity :=
  ms.mergeSort extractOrderLe

end Snips

namespace Snips

/-- C1: for every `BuiltinEntityKind` `k`, `from_identifier (identifier k)`
returns `k`, and `identifier` is injective: distinct kinds never share an
identifier string. -/
theorem identifier_roundtrip_and_injective :
    (∀ k : BuiltinEntityKind, BuiltinEntityKind.from_identifier k.identifier = .ok k) ∧
    (∀ k₁ k₂ : BuiltinEntityKind, k₁.identifier = k₂.identifier → k₁ = k₂) := by
  constructor
  · intro k; cases k <;> rfl
  · intro k₁ k₂ h
    cases k₁ <;> cases k₂ <;> first | rfl | (exfalso; exact absurd h (by decide))

/-- Witness for C1 at the concrete kind `Time`: the round-trip holds and the
injectivity implication applies at equal identifiers. -/
theorem identifier_roundtrip_and_injective_witness :
    BuiltinEntityKind.from_identifier BuiltinEntityKind.Time.identifier =
      .ok BuiltinEntityKind.Time ∧
    BuiltinEntityKind.Time = BuiltinEntityKind.Time :=
  ⟨identifier_roundtrip_and_injective.1 .Time,
    identifier_roundtrip_and_injective.2 .Time .Time rfl⟩

/-- C2: for every string `s` that equals no kind's identifier,
`from_identifier s` returns the `Unknown EntityKind identifier` error rather
than any kind. -/
theorem from_identifier_unknown (s : String)
    (h : ∀ k : BuiltinEntityKind, k.identifier ≠ s) :
    BuiltinEntityKind.from_identifier s =
      .error ("Unknown EntityKind identifier: " ++ s) := by
  have hfind : BuiltinEntityKind.all.find? (fun kind => kind.identifier == s) = none := by
    rw [List.find?_eq_none]
    intro k _
    simpa using h k
  simp [BuiltinEntityKind.from_identifier, hfind]

/-- Witness for C2 at the concrete unknown identifier string `"snips/foo"`. -/
theorem from_identifier_unknown_witness :
    BuiltinEntityKind.from_identifier "snips/foo" =
      .error ("Unknown EntityKind identifier: " ++ "snips/foo") :=
  from_identifier_unknown "snips/foo" (by decide)

/-- C3: `supported_languages` of `Percentage` is exactly DE, EN, ES, FR, JA
(Korean excluded), and `supported_languages` of every other kind is exactly
the full six-language set. -/
theorem supported_languages_spec :
    BuiltinEntityKind.Percentage.supported_languages =
      [.DE, .EN, .ES, .FR, .JA] ∧
    ∀ k : BuiltinEntityKind, k ≠ .Percentage →
      k.supported_languages = [.DE, .EN, .ES, .FR, .JA, .KO] := by
  constructor
  · rfl
  · intro k hk
    cases k <;> first | rfl | exact absurd rfl hk

/-- Witness for C3 at the concrete non-Percentage kind `Number`. -/
theorem supported_languages_spec_witness :
    BuiltinEntityKind.Number.supported_languages = [.DE, .EN, .ES, .FR, .JA, .KO] :=
  supported_languages_spec.2 .Number (by decide)

/-- C6: `examples JA` is empty exactly for the six kinds other than `Number`
(AmountOfMoney, Duration, Ordinal, Temperature, Time, Percentage) and
non-empty for `Number`; `examples KO` is empty exactly for `Percentage` and
non-empty for every other kind. -/
theorem examples_ja_ko_empty_sets :
    (∀ k : BuiltinEntityKind, k.examples .JA = [] ↔ k ≠ .Number) ∧
    (∀ k : BuiltinEntityKind, k.examples .KO = [] ↔ k = .Percentage) := by
  decide

/-- C10: whenever a kind has at least one example for a language, that
language is among the kind's supported languages. -/
theorem examples_nonempty_implies_supported
    (k : BuiltinEntityKind) (l : Language) (h : k.examples l ≠ []) :
    l ∈ k.supported_languages := by
  revert h
  revert k l
  decide

/-- Witness for C10 at the concrete pair `(Number, JA)`. -/
theorem examples_nonempty_implies_supported_witness :
    Language.JA ∈ BuiltinEntityKind.Number.supported_languages :=
  examples_nonempty_implies_supported .Number .JA (by decide)

/-- C5: `result_description` for Percentage returns `Ok` of exactly the
pretty-printed JSON for a one-element list containing a value of kind
`"Percentage"` with value `20.0` (the exact string asserted by
`test_result_descriptions`), and `result_description` for Time returns `Ok`
of the serialization of exactly one `InstantTimeValue` followed by exactly one
`TimeIntervalValue`. -/
theorem result_description_spec :
    BuiltinEntityKind.Percentage.result_description =
      .ok "[\n  \x7b\n    \"kind\": \"Percentage\",\n    \"value\": 20.0\n  \x7d\n]" ∧
    BuiltinEntityKind.Time.result_description =
      .ok ((Json.arr
        ([SlotValue.InstantTime ⟨"2017-06-13 18:00:00 +02:00", .Hour, .Exact⟩,
          SlotValue.TimeInterval ⟨some "2017-06-07 18:00:00 +02:00",
            some "2017-06-08 00:00:00 +02:00"⟩].map SlotValue.toJson)).render 0) :=
  ⟨rfl, rfl⟩

/-- C7: serializing a `BuiltinEntity` writes the `entity_kind` field as the
string returned by `identifier()` (`"snips/datetime"` for the Time kind), and
the entity payload carries a `kind` discriminator equal to the value-model
variant name (`"InstantTime"`, `"Percentage"`, ...). -/
theorem serialize_builtin_entity_fields :
    (∀ e : BuiltinEntity,
      e.serialize.getField "entity_kind" = some (.str e.entity_kind.identifier) ∧
      (e.serialize.getField "entity").bind (fun j => j.getField "kind") =
        some (.str e.entity.kindTag)) ∧
    BuiltinEntityKind.Time.identifier = "snips/datetime" ∧
    SlotValue.kindTag (.InstantTime ⟨"some_value", .Year, .Exact⟩) = "InstantTime" ∧
    SlotValue.kindTag (.Percentage ⟨20⟩) = "Percentage" := by
  refine ⟨?_, rfl, rfl, rfl⟩
  rintro ⟨v, r, ent, k⟩
  exact ⟨rfl, by cases ent <;> rfl⟩

/-- C4 counterexample: a serialized record whose entity payload is a
`Percentage` value but whose `entity_kind` field reads `"snips/datetime"`
(the Time kind) deserializes successfully — the two are NOT cross-checked, so
deserialization does not fail on a mismatch. -/
theorem deserialize_mismatch_accepted :
    deserialize_builtin_entity "twenty percent" ⟨0, 14⟩
      (SlotValue.Percentage ⟨20⟩) "snips/datetime" =
      .ok ⟨"twenty percent", ⟨0, 14⟩, SlotValue.Percentage ⟨20⟩, .Time⟩ := rfl

/-- C4 (amended): deserializing a `BuiltinEntity` decodes the `entity_kind`
string with `from_identifier`, succeeding with the decoded kind whenever the
string is a registered identifier — regardless of the entity payload's
variant — and failing exactly when `from_identifier` fails; no cross-check
against the entity field's variant tag is performed. -/
theorem deserialize_entity_kind_spec (v : String) (r : ByteRange)
    (e : SlotValue) (s : String) :
    (∀ k, BuiltinEntityKind.from_identifier s = .ok k →
      deserialize_builtin_entity v r e s = .ok ⟨v, r, e, k⟩) ∧
    (∀ msg, BuiltinEntityKind.from_identifier s = .error msg →
      deserialize_builtin_entity v r e s = .error msg) := by
  constructor <;> intro x h <;> simp [deserialize_builtin_entity, h]

/-- Witness for C4's amended theorem at the ser/de test's concrete record
(`"hello"`, range 12..42, an `InstantTimeValue`, `"snips/datetime"`). -/
theorem deserialize_entity_kind_spec_witness :
    deserialize_builtin_entity "hello" ⟨12, 42⟩
      (SlotValue.InstantTime ⟨"some_value", .Year, .Exact⟩) "snips/datetime" =
      .ok ⟨"hello", ⟨12, 42⟩,
        SlotValue.InstantTime ⟨"some_value", .Year, .Exact⟩, .Time⟩ :=
  (deserialize_entity_kind_spec "hello" ⟨12, 42⟩
    (SlotValue.InstantTime ⟨"some_value", .Year, .Exact⟩) "snips/datetime").1
    .Time (by rfl)

/-- C8: converting a raw Duration match whose present components are all
non-negative yields a `DurationValue` in which every absent component is 0 and
the precision defaults to `Exact` when the engine supplies no flag. -/
theorem convert_duration_defaults (r : RawDurationMatch)
    (h : 0 ≤ r.years.getD 0 ∧ 0 ≤ r.quarters.getD 0 ∧ 0 ≤ r.months.getD 0 ∧
      0 ≤ r.weeks.getD 0 ∧ 0 ≤ r.days.getD 0 ∧ 0 ≤ r.hours.getD 0 ∧
      0 ≤ r.minutes.getD 0 ∧ 0 ≤ r.seconds.getD 0) :
    convert_duration r =
      .ok ⟨r.years.getD 0, r.quarters.getD 0, r.months.getD 0, r.weeks.getD 0,
        r.days.getD 0, r.hours.getD 0, r.minutes.getD 0, r.seconds.getD 0,
        r.precision.getD .Exact⟩ := by
  obtain ⟨h1, h2, h3, h4, h5, h6, h7, h8⟩ := h
  rw [convert_duration, if_neg]
  push_neg
  exact ⟨h1, h2, h3, h4, h5, h6, h7, h8⟩

/-- Witness for C8 at the claim's concrete input: a raw match with only
`months = 3` present converts to `DurationValue{months: 3, all others: 0,
precision: Exact}`. -/
theorem convert_duration_defaults_witness :
    convert_duration ⟨none, none, some 3, none, none, none, none, none, none⟩ =
      .ok ⟨0, 0, 3, 0, 0, 0, 0, 0, .Exact⟩ :=
  convert_duration_defaults
    ⟨none, none, some 3, none, none, none, none, none, none⟩ (by decide)

/-- C9: the sequence `extract` returns is ordered ascending by `range.start`,
and of two records sharing a `range.start` the one with the larger
`range.end` comes first. -/
theorem extract_output_ordered (ms : List BuiltinEntity) :
    (extractOrder ms).Pairwise (fun a b =>
      a.range.start < b.range.start ∨
        (a.range.start = b.range.start ∧ b.range.«end» ≤ a.range.«end»)) := by
  have hiff : ∀ a b : BuiltinEntity, extractOrderLe a b = true ↔
      (a.range.start < b.range.start ∨
        (a.range.start = b.range.start ∧ b.range.«end» ≤ a.range.«end»)) := by
    intro a b
    simp [extractOrderLe]
  have htrans : ∀ a b c : BuiltinEntity,
      extractOrderLe a b = true → extractOrderLe b c = true →
      extractOrderLe a c = true := by
    intro a b c hab hbc
    rw [hiff] at hab hbc ⊢
    omega
  have htotal : ∀ a b : BuiltinEntity,
      (extractOrderLe a b || extractOrderLe b a) = true := by
    intro a b
    rcases Nat.lt_trichotomy a.range.start b.range.start with h | h | h
    · simp [hiff a b, h]
    · rcases Nat.le_total b.range.«end» a.range.«end» with h2 | h2
      · simp [hiff a b, h, h2]
      · simp [hiff b a, h.symm, h2]
    · simp [hiff b a, h]
  have hp := List.sorted_mergeSort htrans htotal ms
  exact hp.imp (fun hab => (hiff _ _).mp hab)

end Snips
